import Mathlib

/-!
Shallow embedding of the `code_optimiser` repository
(`src/debugger.py`, `src/optimiser.py`, `src/json_optimiser.py`).

External collaborators (the CPython `compile` builtin, the pyflakes
linter, the Groq LLM client and the Black formatter) are opaque
services; they are modelled as fields of an `Env` record.  Fallible
remote calls are `Except`-valued: the Python code catches every
exception from them at the call site, which the embedding mirrors by
pattern-matching on the `Except`.  All functions of the repository
itself are embedded as total Lean functions, following the source
line by line.
-/

namespace CodeOptimiserRepo

/-- Outcome of one remote chat-completion call: either the content of
the first choice of the response (before the `.strip()` applied by the
caller), or the text of the exception raised by the call. -/
abbrev LlmOutcome := Except String String

/-- The opaque external world seen by the program.

* `compileCheck code`: result of `compile(code, "<string>", "exec")` —
  `none` when the parse succeeds, `some msg` when it raises a
  `SyntaxError` whose `str` is `msg`.
* `pyflakes`: `none` when the pyflakes import failed; otherwise the
  checker, returning the warning count and the `strip()`-ed text the
  reporter wrote.
* `groqAvailable`: whether the `groq` library import succeeded.
* `envApiKey`: result of `os.getenv("GROQ_API_KEY")`.
* `llmDebug code`: the advisory chat call made by `Debugger.check`
  (the fixed debugging prompt framing the code is opaque here).
* `llmRewrite code query`: the rewrite chat call made by
  `GroqOptimiserAgent.run` (fixed optimiser prompt framing both).
* `formatStr`: `none` when the `black` import failed; otherwise
  `black.format_str` with the default `FileMode`, which either
  returns formatted text or raises (`Except.error`). -/
structure Env where
  compileCheck : String → Option String
  pyflakes : Option (String → Nat × String)
  groqAvailable : Bool
  envApiKey : Option String
  llmDebug : String → LlmOutcome
  llmRewrite : String → String → LlmOutcome
  formatStr : Option (String → Except String String)

/-- Python truthiness of an optional string (`None` and `""` are falsy). -/
def truthy : Option String → Bool
  | none => false
  | some s => !(s = "")

/-- Key resolution `api_key or os.getenv("GROQ_API_KEY")`: the explicit argument when
truthy, else the environment variable. -/
def resolveKey (arg : Option String) (envKey : Option String) : Option String :=
  if truthy arg then arg else envKey

/-- Python newline join, `"\n".join(xs)`. -/
def joinLines : List String → String
  | [] => ""
  | [x] => x
  | x :: xs => x ++ "\n" ++ joinLines xs

/-- State of a `Debugger` instance: after `__init__`, all that later calls
observe is whether `self.client` was constructed (`api_key` truthy and
the `groq` library importable). -/
structure Debugger where
  hasClient : Bool

/-- Embeds `Debugger.__init__(api_key=None, ...)`. -/
def Debugger.init (env : Env) (api_key : Option String) : Debugger :=
  { hasClient := truthy (resolveKey api_key env.envApiKey) && env.groqAvailable }

/-- Embeds `Debugger._static_analysis`. -/
def staticAnalysis (env : Env) (code : String) : String :=
  match env.pyflakes with
  | none => "Pyflakes not installed; skipping static analysis."
  | some chk =>
    let r := chk code
    if r.1 = 0 && r.2 = "" then "Pyflakes: no issues found."
    else "Pyflakes issues:\n" ++ r.2

/-- The first block of `Debugger.check`: the try/except around
`compile(code, "<string>", "exec")`. -/
def synResult (env : Env) (code : String) : String :=
  match env.compileCheck code with
  | none => "No syntax errors detected."
  | some exc => "Syntax error: " ++ exc

/-- The third block of `Debugger.check`: empty when no client, else the
stripped LLM answer or the caught-exception annotation. -/
def llmResult (env : Env) (d : Debugger) (code : String) : String :=
  if d.hasClient then
    match env.llmDebug code with
    | Except.ok content => content.trim
    | Except.error exc => "Error contacting Groq: " ++ exc
  else ""

/-- Embeds `Debugger.check`: joins the non-empty blocks with newlines
(`"\n".join(filter(None, [syntax_result, static_result, llm_result]))`). -/
def Debugger.check (env : Env) (d : Debugger) (code : String) : String :=
  joinLines
    (([synResult env code, staticAnalysis env code, llmResult env d code]).filter
      (fun s => !(s = "")))

/-- State of a `GroqOptimiserAgent` instance: whether `self.client` was
constructed in `__init__` (`api_key` truthy and `groq` importable). -/
structure GroqOptimiserAgent where
  hasClient : Bool

/-- Embeds `GroqOptimiserAgent.__init__(api_key, model)`. -/
def GroqOptimiserAgent.init (env : Env) (api_key : Option String) : GroqOptimiserAgent :=
  { hasClient := truthy api_key && env.groqAvailable }

/-- Embeds `GroqOptimiserAgent.run`: no-op without a client; otherwise the
stripped response, or on any exception the original code with the
inline `# Error contacting Groq` comment appended. -/
def GroqOptimiserAgent.run (env : Env) (a : GroqOptimiserAgent)
    (code query : String) : String :=
  if a.hasClient then
    match env.llmRewrite code query with
    | Except.ok content => content.trim
    | Except.error exc => code ++ ("\n# Error contacting Groq: " ++ exc)
  else code

/-- Embeds `BlackFormatterAgent.run`: the formatted text when `black` is
importable and `format_str` succeeds, the input unchanged otherwise. -/
def BlackFormatterAgent.run (env : Env) (code : String) : String :=
  match env.formatStr with
  | none => code
  | some f =>
    match f code with
    | Except.ok s => s
    | Except.error _ => code

/-- The LangGraph pipeline state (`CodeOptimiser._State`, a `TypedDict`
with fields `code` and `query`). -/
structure GState where
  code : String
  query : String
deriving DecidableEq

/-- A compiled LangGraph `StateGraph`: named nodes (each returning a
state update, here always applied to the whole state) and directed
edges.  The source builds a linear chain, so each node has at most one
outgoing edge and `nextNode` follows the unique edge. -/
structure StateGraph where
  nodes : List (String × (GState → GState))
  edges : List (String × String)

/-- The LangGraph entry sentinel `START`. -/
def startKey : String := "__start__"

/-- The LangGraph exit sentinel `END`. -/
def endKey : String := "__end__"

/-- The unique successor of `current` along the edge list, if any. -/
def StateGraph.nextNode (g : StateGraph) (current : String) : Option String :=
  (g.edges.find? (fun e => e.1 = current)).map (fun e => e.2)

/-- Execute the compiled graph from node name `current` on state `s`,
with enough fuel to traverse every node once.  Stops on `END`, on a
missing edge, or on a dangling node name. -/
def StateGraph.runFrom (g : StateGraph) : Nat → String → GState → GState
  | 0, _, s => s
  | Nat.succ fuel, current, s =>
    match g.nextNode current with
    | none => s
    | some nxt =>
      if nxt = endKey then s
      else
        match (g.nodes.find? (fun n => n.1 = nxt)).map (fun n => n.2) with
        | none => s
        | some f => g.runFrom fuel nxt (f s)

/-- Embeds `graph.invoke(state)`: run from `START`. -/
def StateGraph.invoke (g : StateGraph) (s : GState) : GState :=
  g.runFrom (g.nodes.length + 1) startKey s

/-- State of a `CodeOptimiser` instance after `__init__`: the Groq agent it
constructed (the Black agent and the compiled graph are a function of
the environment alone). -/
structure CodeOptimiser where
  groqAgent : GroqOptimiserAgent

/-- Embeds `CodeOptimiser.__init__(api_key=None, ...)`: resolve the key
against the environment variable, then build the Groq agent. -/
def CodeOptimiser.init (env : Env) (api_key : Option String) : CodeOptimiser :=
  { groqAgent := GroqOptimiserAgent.init env (resolveKey api_key env.envApiKey) }

/-- Embeds `CodeOptimiser._build_graph`: two nodes `groq` and `format`, each
writing the `code` field, chained `START → groq → format → END`. -/
def CodeOptimiser.buildGraph (env : Env) (c : CodeOptimiser) : StateGraph :=
  { nodes :=
      [("groq", fun s => { s with code := c.groqAgent.run env s.code s.query }),
       ("format", fun s => { s with code := BlackFormatterAgent.run env s.code })],
    edges := [(startKey, "groq"), ("groq", "format"), ("format", endKey)] }

/-- Embeds `CodeOptimiser.optimise`: invoke the graph on `{code, query}` and
return the resulting `code` field. -/
def CodeOptimiser.optimise (env : Env) (c : CodeOptimiser) (code query : String) : String :=
  ((c.buildGraph env).invoke { code := code, query := query }).code

/-- The record emitted by one end-to-end run of `json_optimiser.main`
after input validation: the two printed diagnostic reports and the
optimised code that is written out. -/
structure PipelineResult where
  initial_report : String
  final_code : String
  final_report : String
deriving DecidableEq

/-- The pipeline body of `json_optimiser.main` (lines 26–38): a
default `Debugger` reports on the original code, a default
`CodeOptimiser` rewrites and formats it, and the same `Debugger`
reports on the result. -/
def Pipeline.run (env : Env) (code query : String) : PipelineResult :=
  let debugger := Debugger.init env none
  let initialReport := debugger.check env code
  let optimiser := CodeOptimiser.init env none
  let optimised := optimiser.optimise env code query
  { initial_report := initialReport,
    final_code := optimised,
    final_report := debugger.check env optimised }

/-- JSON values as loaded by `json.load`. -/
inductive JValue where
  | null : JValue
  | bool : Bool → JValue
  | num : Int → JValue
  | str : String → JValue
  | arr : List JValue → JValue
  | obj : List (String × JValue) → JValue

/-- Embeds `data.get(k)` on the dict produced by `json.load` from an object
whose members are `fields` in source order: duplicate keys keep the
last member; a JSON `null` loads as Python `None`, indistinguishable
from an absent key to the `is None` test that follows. -/
def dictGet (fields : List (String × JValue)) (k : String) : Option JValue :=
  match fields.reverse.find? (fun p => p.1 = k) with
  | none => none
  | some p =>
    match p.2 with
    | JValue.null => none
    | v => some v

/-- The input validation of `json_optimiser.main` (lines 21–24): fetch
`code` and `query`, raise `ValueError` when either `is None`, and
otherwise hand both values — of whatever JSON type — to the pipeline. -/
def jsonMainValidate (fields : List (String × JValue)) :
    Except String (JValue × JValue) :=
  match dictGet fields "code", dictGet fields "query" with
  | some c, some q => Except.ok (c, q)
  | _, _ => Except.error "JSON must contain 'code' and 'query' fields"

/-- Concrete offline environment for instantiations: no optional
library is importable, no credential is configured, and the parser
accepts every input (as CPython does on the inputs used below). -/
def envDemo : Env :=
  { compileCheck := fun _ => none,
    pyflakes := none,
    groqAvailable := false,
    envApiKey := none,
    llmDebug := fun _ => Except.error "offline",
    llmRewrite := fun _ _ => Except.error "offline",
    formatStr := none }

/-- Concrete environment in which the `groq` library is importable and
a key is configured, but the remote rewrite call raises. -/
def envFail : Env :=
  { compileCheck := fun _ => none,
    pyflakes := none,
    groqAvailable := true,
    envApiKey := some "k",
    llmDebug := fun _ => Except.error "boom",
    llmRewrite := fun _ _ => Except.error "boom",
    formatStr := none }

/-- Concrete environment in which the parser rejects every input with
a fixed message, as CPython does on the malformed input used below. -/
def envSynErr : Env :=
  { compileCheck := fun _ => some "invalid syntax (<string>, line 1)",
    pyflakes := none,
    groqAvailable := false,
    envApiKey := none,
    llmDebug := fun _ => Except.error "offline",
    llmRewrite := fun _ _ => Except.error "offline",
    formatStr := none }

/-- Concrete environment whose formatting library succeeds on every
input and acts as the identity (a canonical formatter). -/
def envIdFmt : Env :=
  { compileCheck := fun _ => none,
    pyflakes := none,
    groqAvailable := false,
    envApiKey := none,
    llmDebug := fun _ => Except.error "offline",
    llmRewrite := fun _ _ => Except.error "offline",
    formatStr := some (fun s => Except.ok s) }

/-- Concrete environment with no provider configured (no credential,
`groq` not importable) but with the black library installed: on the
input `"x=1"` the library returns `"x = 1\n"`, as the real
`format_str("x=1", mode=FileMode())` does, and leaves other inputs
unchanged. -/
def envBlack : Env :=
  { compileCheck := fun _ => none,
    pyflakes := none,
    groqAvailable := false,
    envApiKey := none,
    llmDebug := fun _ => Except.error "offline",
    llmRewrite := fun _ _ => Except.error "offline",
    formatStr := some (fun s => Except.ok (if s = "x=1" then "x = 1\n" else s)) }

/-- Concrete JSON object members carrying non-string values for the
two required fields. -/
def demoFields : List (String × JValue) :=
  [("code", JValue.num 5), ("query", JValue.obj [])]

/-! ## Helper lemmas -/

theorem append_ne_empty_left (a b : String) (h : a ≠ "") : a ++ b ≠ "" := by
  intro hab
  apply h
  have hd : (a ++ b).data = "".data := congrArg String.data hab
  simp only [String.data_append] at hd
  exact String.ext (List.append_eq_nil.mp hd).1

theorem synResult_ne_empty (env : Env) (code : String) :
    synResult env code ≠ "" := by
  unfold synResult
  cases env.compileCheck code with
  | none => decide
  | some exc => exact append_ne_empty_left _ _ (by decide)

theorem staticAnalysis_ne_empty (env : Env) (code : String) :
    staticAnalysis env code ≠ "" := by
  unfold staticAnalysis
  cases env.pyflakes with
  | none => simp
  | some chk =>
    simp only
    split
    · decide
    · exact append_ne_empty_left _ _ (by decide)

/-- Shows `Debugger.check` always starts with the syntax block: the report is
the syntax line followed by some remainder. -/
theorem check_eq_syn_append (env : Env) (d : Debugger) (code : String) :
    ∃ rest, Debugger.check env d code = synResult env code ++ rest := by
  unfold Debugger.check
  have hs : (!(synResult env code = "")) = true := by
    simp [synResult_ne_empty env code]
  have hst : (!(staticAnalysis env code = "")) = true := by
    simp [staticAnalysis_ne_empty env code]
  simp only [List.filter, hs, hst]
  cases hl : (!(llmResult env d code = "")) with
  | false =>
    exact ⟨"\n" ++ staticAnalysis env code, by simp [joinLines, String.append_assoc]⟩
  | true =>
    exact ⟨"\n" ++ (staticAnalysis env code ++ ("\n" ++ llmResult env d code)),
      by simp [joinLines, String.append_assoc]⟩

theorem check_ne_empty (env : Env) (d : Debugger) (code : String) :
    Debugger.check env d code ≠ "" := by
  obtain ⟨rest, hrest⟩ := check_eq_syn_append env d code
  rw [hrest]
  exact append_ne_empty_left _ _ (synResult_ne_empty env code)

/-- Invoking the compiled two-node graph is the sequential composition
of the `groq` node and the `format` node on the `code` field. -/
theorem optimise_eq (env : Env) (c : CodeOptimiser) (code query : String) :
    CodeOptimiser.optimise env c code query
      = BlackFormatterAgent.run env (c.groqAgent.run env code query) := by
  rfl

/-! ## Claim theorems -/

/-- C1: for every `(code, instruction)` pair, the pipeline produces the
initial report from the original code, rewrites the original code with
the instruction, formats the rewritten code, produces the final report
from the formatted code, and emits the initial report, the final
report, and the formatted code as the final code. -/
theorem pipeline_stage_order (env : Env) (code query : String) :
    Pipeline.run env code query =
      { initial_report := Debugger.check env (Debugger.init env none) code,
        final_code := BlackFormatterAgent.run env
          ((CodeOptimiser.init env none).groqAgent.run env code query),
        final_report := Debugger.check env (Debugger.init env none)
          (BlackFormatterAgent.run env
            ((CodeOptimiser.init env none).groqAgent.run env code query)) } := by
  rfl

/-- C2: for every environment (in particular when every external
service is unavailable) and every `(code, instruction)` pair, the
pipeline returns a non-empty initial report and a non-empty final
report; it is a total function, so no stage failure fails the run. -/
theorem pipeline_reports_nonempty (env : Env) (code query : String) :
    (Pipeline.run env code query).initial_report ≠ ""
      ∧ (Pipeline.run env code query).final_report ≠ "" :=
  ⟨check_ne_empty env (Debugger.init env none) code,
   check_ne_empty env (Debugger.init env none)
     (CodeOptimiser.optimise env (CodeOptimiser.init env none) code query)⟩

/-- C3: `Debugger.check` returns a non-empty report for every input
string (including the empty string), every environment and every
client state. -/
theorem debugger_check_nonempty (env : Env) (d : Debugger) (code : String) :
    Debugger.check env d code ≠ "" :=
  check_ne_empty env d code

/-- C4: the report always begins with its syntax block; on a valid
parse that block is exactly the fixed success line, and on a parse
failure it is the `Syntax error: ` marker followed by the original
parser error text. -/
theorem check_syn_line (env : Env) (d : Debugger) (code : String) :
    (∃ rest, Debugger.check env d code = synResult env code ++ rest)
    ∧ (env.compileCheck code = none →
        synResult env code = "No syntax errors detected.")
    ∧ (∀ e, env.compileCheck code = some e →
        synResult env code = "Syntax error: " ++ e) := by
  refine ⟨check_eq_syn_append env d code, ?_, ?_⟩
  · intro h
    unfold synResult
    rw [h]
  · intro e h
    unfold synResult
    rw [h]

/-- Closed instantiation of C4 at two concrete environments: a valid
parse and a failing parse. -/
theorem check_syn_line_witness :
    synResult envDemo "x=1" = "No syntax errors detected."
    ∧ (∃ rest, Debugger.check envDemo (Debugger.init envDemo none) "x=1"
        = synResult envDemo "x=1" ++ rest)
    ∧ synResult envSynErr "def f(:"
        = "Syntax error: " ++ "invalid syntax (<string>, line 1)" :=
  ⟨(check_syn_line envDemo (Debugger.init envDemo none) "x=1").2.1 rfl,
   (check_syn_line envDemo (Debugger.init envDemo none) "x=1").1,
   (check_syn_line envSynErr (Debugger.init envSynErr none) "def f(:").2.2
     "invalid syntax (<string>, line 1)" rfl⟩

/-- C5: when no API key argument and no environment key is configured,
or the provider library is absent, the rewrite agent returns its code
argument unchanged for every code and instruction. -/
theorem rewrite_noop_without_credential (env : Env) (arg : Option String)
    (code query : String)
    (h : (arg = none ∧ env.envApiKey = none) ∨ env.groqAvailable = false) :
    (GroqOptimiserAgent.init env (resolveKey arg env.envApiKey)).run env
      code query = code := by
  unfold GroqOptimiserAgent.run GroqOptimiserAgent.init
  rcases h with ⟨ha, he⟩ | hg
  · subst ha
    simp [resolveKey, truthy, he]
  · simp [hg]

/-- Closed instantiation of C5 in the offline environment. -/
theorem rewrite_noop_without_credential_witness :
    (GroqOptimiserAgent.init envDemo (resolveKey none envDemo.envApiKey)).run
      envDemo "x=1" "add a docstring" = "x=1" :=
  rewrite_noop_without_credential envDemo none "x=1" "add a docstring"
    (Or.inl ⟨rfl, rfl⟩)

/-- C6: when the remote rewrite call fails, the agent returns the
original code with exactly the one appended error comment carrying the
failure reason, so the original code is an exact prefix of the
result. -/
theorem rewrite_failure_annotates (env : Env) (a : GroqOptimiserAgent)
    (code query exc : String)
    (hc : a.hasClient = true)
    (hf : env.llmRewrite code query = Except.error exc) :
    a.run env code query = code ++ ("\n# Error contacting Groq: " ++ exc)
    ∧ ∃ t, a.run env code query = code ++ t := by
  have h : a.run env code query
      = code ++ ("\n# Error contacting Groq: " ++ exc) := by
    unfold GroqOptimiserAgent.run
    simp [hc, hf]
  exact ⟨h, _, h⟩

/-- Closed instantiation of C6 in the failing-call environment. -/
theorem rewrite_failure_annotates_witness :
    (GroqOptimiserAgent.init envFail (some "k")).run envFail "x=1" "q"
      = "x=1" ++ ("\n# Error contacting Groq: " ++ "boom") :=
  (rewrite_failure_annotates envFail (GroqOptimiserAgent.init envFail (some "k"))
    "x=1" "q" "boom" rfl rfl).1

/-- C7: the formatter wrapper is a total function and, on every input
and environment, returns either the input unchanged or the successful
output of the formatting library; its error branch propagates
nothing. -/
theorem formatter_total (env : Env) (code : String) :
    BlackFormatterAgent.run env code = code
      ∨ ∃ f s, env.formatStr = some f ∧ f code = Except.ok s
          ∧ BlackFormatterAgent.run env code = s := by
  cases hf : env.formatStr with
  | none => exact Or.inl (by simp [BlackFormatterAgent.run, hf])
  | some f =>
    cases hr : f code with
    | error e => exact Or.inl (by simp [BlackFormatterAgent.run, hf, hr])
    | ok s => exact Or.inr ⟨f, s, rfl, hr, by simp [BlackFormatterAgent.run, hf, hr]⟩

/-- C8: when the formatting library succeeds on `x` and is canonical
(its successful outputs are its own fixed points, the contract of a
canonical formatter), the wrapper is idempotent at `x`. -/
theorem format_idempotent_on_success (env : Env)
    (f : String → Except String String) (x y : String)
    (hav : env.formatStr = some f)
    (hy : f x = Except.ok y)
    (hcanon : ∀ a b, f a = Except.ok b → f b = Except.ok b) :
    BlackFormatterAgent.run env (BlackFormatterAgent.run env x)
      = BlackFormatterAgent.run env x := by
  have hx : BlackFormatterAgent.run env x = y := by
    simp [BlackFormatterAgent.run, hav, hy]
  rw [hx]
  simp [BlackFormatterAgent.run, hav, hcanon x y hy]

/-- Closed instantiation of C8 with the identity formatting library. -/
theorem format_idempotent_on_success_witness :
    BlackFormatterAgent.run envIdFmt (BlackFormatterAgent.run envIdFmt "x=1")
      = BlackFormatterAgent.run envIdFmt "x=1" :=
  format_idempotent_on_success envIdFmt (fun s => Except.ok s) "x=1" "x=1"
    rfl rfl (fun _ _ _ => rfl)

/-- C9 counterexample: with no provider configured but the black
library installed, the end-to-end run on `"x=1"` with instruction
`"add a docstring"` yields the reformatted `"x = 1\n"` as final code,
not `"x=1"`: the claim as stated, which conditions only on the
provider, is false. -/
theorem pipeline_offline_example_cex :
    (Pipeline.run envBlack "x=1" "add a docstring").final_code = "x = 1\n"
    ∧ (Pipeline.run envBlack "x=1" "add a docstring").final_code ≠ "x=1" := by
  refine ⟨rfl, ?_⟩
  decide

/-- C9 (amended): in an offline run (no environment key, and the
formatting library also unavailable) where the parser accepts
`"x=1"`, the end-to-end run on `"x=1"` with instruction
`"add a docstring"` yields an initial report starting with the
success line, the final code `"x=1"` unchanged, and a final report
equal to the initial report. -/
theorem pipeline_offline_example (env : Env)
    (hkey : env.envApiKey = none)
    (hfmt : env.formatStr = none)
    (hsyn : env.compileCheck "x=1" = none) :
    (Pipeline.run env "x=1" "add a docstring").final_code = "x=1"
    ∧ (∃ rest, (Pipeline.run env "x=1" "add a docstring").initial_report
        = "No syntax errors detected." ++ rest)
    ∧ (Pipeline.run env "x=1" "add a docstring").final_report
        = (Pipeline.run env "x=1" "add a docstring").initial_report := by
  have hopt : CodeOptimiser.optimise env (CodeOptimiser.init env none)
      "x=1" "add a docstring" = "x=1" := by
    rw [optimise_eq]
    have hg : (CodeOptimiser.init env none).groqAgent.run env
        "x=1" "add a docstring" = "x=1" := by
      simp [CodeOptimiser.init, GroqOptimiserAgent.init, GroqOptimiserAgent.run,
        resolveKey, truthy, hkey]
    rw [hg]
    simp [BlackFormatterAgent.run, hfmt]
  refine ⟨hopt, ?_, ?_⟩
  · obtain ⟨rest, hr⟩ :=
      check_eq_syn_append env (Debugger.init env none) "x=1"
    refine ⟨rest, ?_⟩
    show Debugger.check env (Debugger.init env none) "x=1"
      = "No syntax errors detected." ++ rest
    rw [hr]
    unfold synResult
    rw [hsyn]
  · show Debugger.check env (Debugger.init env none)
        (CodeOptimiser.optimise env (CodeOptimiser.init env none)
          "x=1" "add a docstring")
      = Debugger.check env (Debugger.init env none) "x=1"
    rw [hopt]

/-- Closed instantiation of C9 in the offline environment. -/
theorem pipeline_offline_example_witness :
    (Pipeline.run envDemo "x=1" "add a docstring").final_code = "x=1"
    ∧ (∃ rest, (Pipeline.run envDemo "x=1" "add a docstring").initial_report
        = "No syntax errors detected." ++ rest)
    ∧ (Pipeline.run envDemo "x=1" "add a docstring").final_report
        = (Pipeline.run envDemo "x=1" "add a docstring").initial_report :=
  pipeline_offline_example envDemo rfl rfl rfl

/-- C10: the JSON entry point raises its missing-field `ValueError`
exactly when the `code` or the `query` key maps to no value or to JSON
null; any other value of either field, of any JSON type, is accepted
and handed to the pipeline as is. -/
theorem jsonMain_field_validation (fields : List (String × JValue)) :
    (jsonMainValidate fields
        = Except.error "JSON must contain 'code' and 'query' fields"
      ↔ (dictGet fields "code" = none ∨ dictGet fields "query" = none))
    ∧ (∀ c q, dictGet fields "code" = some c →
        dictGet fields "query" = some q →
        jsonMainValidate fields = Except.ok (c, q)) := by
  constructor
  · cases hc : dictGet fields "code" <;> cases hq : dictGet fields "query" <;>
      simp [jsonMainValidate, hc, hq]
  · intro c q hc hq
    simp [jsonMainValidate, hc, hq]

/-- Closed instantiation of C10: non-string `code` and `query` values
are accepted and passed through. -/
theorem jsonMain_field_validation_witness :
    jsonMainValidate demoFields = Except.ok (JValue.num 5, JValue.obj []) :=
  (jsonMain_field_validation demoFields).2 (JValue.num 5) (JValue.obj [])
    rfl rfl

end CodeOptimiserRepo
